import Mathlib

set_option maxRecDepth 8000

/-!
# SmartPoll — Vote Recording & Integrity subsystem, shallow embedding

This file embeds the vote-recording core of the SmartPoll repository in Lean:

* the persisted schema (`polls`, `poll_options`, `votes`) as a list-based
  database state `DB`;
* the two SQL versions of the `increment_vote` RPC found in the repository:
  the original one from `supabase_schema.sql` (returns `VOID`, raises on
  duplicate) and the enhanced one from `scripts/setup_security.sql`
  (returns a `(success, message, vote_count)` row);
* the TypeScript callers: `recordVoteAtomically` (src/lib/voteHandler.ts),
  `votePollOperation` (server action), the `POST /api/votes/record` route
  handler, and `handleVote` (src/lib/voteHandler.ts);
* the error classifier of `src/app/actions/poll-errors.ts`.

A plpgsql function body runs inside a single transaction: an error result
(`Except.error`) aborts the whole transaction, so the embedding returns the
unchanged pre-state in that case (callers keep their old `DB`); a successful
result carries the committed post-state.  Interleaving with other committed
transactions between a caller's RPC and its later follow-up read is modelled
by an explicit `other : DB → DB` parameter (identity in a sequential run).
-/

/-- A row of `polls`: `id UUID PRIMARY KEY, expires_at TIMESTAMP NULL`
(`supabase_schema.sql` lines 6–13; the columns the voting core reads). -/
structure Poll where
  id : String
  expiresAt : Option Nat
  deriving Repr, DecidableEq

/-- A row of `poll_options`: `id PK, poll_id FK -> polls, votes INTEGER DEFAULT 0`
(`supabase_schema.sql` lines 16–23). -/
structure PollOption where
  id : String
  pollId : String
  votes : Int
  deriving Repr, DecidableEq

/-- A row of `votes`: `user_id, poll_id FK, option_id FK, UNIQUE(user_id, poll_id)`
(`supabase_schema.sql` lines 27–34). -/
structure VoteRecord where
  userId : String
  pollId : String
  optionId : String
  deriving Repr, DecidableEq

/-- The transactional storage state: the `auth.users` ids plus the three
tables of the persisted schema. -/
structure DB where
  users : List String
  polls : List Poll
  options : List PollOption
  votes : List VoteRecord
  deriving Repr, DecidableEq

/-- `SELECT * FROM polls WHERE id = pid` (`.single()`): first matching row. -/
def DB.findPoll (db : DB) (pid : String) : Option Poll :=
  db.polls.find? (fun pl => pl.id == pid)

/-- `SELECT * FROM poll_options WHERE id = oid`: first matching row. -/
def DB.findOption (db : DB) (oid : String) : Option PollOption :=
  db.options.find? (fun o => o.id == oid)

/-- `SELECT * FROM poll_options WHERE id = oid AND poll_id = pid`. -/
def DB.findOptionOfPoll (db : DB) (oid pid : String) : Option PollOption :=
  db.options.find? (fun o => o.id == oid && o.pollId == pid)

/-- `SELECT 1 FROM votes WHERE user_id = uid AND poll_id = pid`: does a
committed vote for the `(userId, pollId)` pair exist? -/
def DB.hasVote (db : DB) (uid pid : String) : Bool :=
  db.votes.any (fun v => v.userId == uid && v.pollId == pid)

/-- `UPDATE poll_options SET votes = votes + 1 WHERE id = oid`. -/
def bumpVotes (opts : List PollOption) (oid : String) : List PollOption :=
  opts.map (fun o => if o.id == oid then { o with votes := o.votes + 1 } else o)

/-- JavaScript `string.includes(pat)`: `pat` occurs as a contiguous
substring of `s` (expressed over the character lists). -/
def strIncludes (s pat : String) : Bool :=
  decide (pat.data <:+: s.data)

/-- JavaScript falsiness of `s.trim()` (as in `!pollId?.trim()` and
`pollId.trim().length === 0`): the string has no non-whitespace character. -/
def isBlank (s : String) : Bool :=
  s.data.all (fun c => c.isWhitespace)

/-- A PostgREST / PostgreSQL error value as seen by the TypeScript callers:
an object with `code` and `message` fields. -/
structure PgError where
  code : String
  message : String
  deriving Repr, DecidableEq

/-- The committed effect pair shared by both `increment_vote` versions:
`INSERT INTO votes (user_id, poll_id, option_id) VALUES (...)` followed by
`UPDATE poll_options SET votes = votes + 1 WHERE id = option_id`, in one
transaction. -/
def commitVote (db : DB) (user_id poll_id option_id : String) : DB :=
  { db with
    votes := db.votes ++ [⟨user_id, poll_id, option_id⟩],
    options := bumpVotes db.options option_id }

/-- `increment_vote` as defined in `supabase_schema.sql` lines 37–53.
Body: `INSERT INTO votes (user_id, poll_id, option_id) VALUES (...)`, then
`UPDATE poll_options SET votes = votes + 1 WHERE id = option_id`; a
`unique_violation` from the insert is caught and re-raised as
`'User has already voted on this poll'` (code `P0001`), aborting the
transaction.  A foreign-key violation from the insert propagates raw
(code `23503`).  There is no poll-expiry check and no check that the
option belongs to the supplied poll. -/
def increment_vote_schema (db : DB) (option_id poll_id user_id : String) :
    Except PgError DB :=
  if db.hasVote user_id poll_id then
    Except.error ⟨"P0001", "User has already voted on this poll"⟩
  else if !(db.users.contains user_id) then
    Except.error ⟨"23503", "insert or update on table votes violates foreign key constraint votes_user_id_fkey"⟩
  else if (db.findPoll poll_id).isNone then
    Except.error ⟨"23503", "insert or update on table votes violates foreign key constraint votes_poll_id_fkey"⟩
  else if (db.findOption option_id).isNone then
    Except.error ⟨"23503", "insert or update on table votes violates foreign key constraint votes_option_id_fkey"⟩
  else
    Except.ok (commitVote db user_id poll_id option_id)

/-- The result row type of the enhanced `increment_vote`:
`RETURNS TABLE(success BOOLEAN, message TEXT, vote_count INTEGER)`
(`scripts/setup_security.sql` line 310). -/
structure RpcRow where
  success : Bool
  message : String
  vote_count : Int
  deriving Repr, DecidableEq

/-- The enhanced function's expiry test (`setup_security.sql` line 335):
`expires_at IS NOT NULL AND expires_at <= NOW()`. -/
def securityExpired (pl : Poll) (now : Nat) : Bool :=
  match pl.expiresAt with
  | none => false
  | some t => decide (t ≤ now)

/-- `increment_vote` as redefined in `scripts/setup_security.sql` lines
305–378.  Every business failure is reported as a returned row with
`success = FALSE` (not a raised error): null user, poll not found, poll
expired (`expires_at IS NOT NULL AND expires_at <= NOW()`), option not
belonging to the poll, and an existing vote for `(user_id, poll_id)`
(which returns the option's current count).  Only then does it insert the
vote, increment the option and read the count back inside the same
transaction. -/
def increment_vote_security (db : DB) (now : Nat) (option_id poll_id : String)
    (user_id : Option String) : Except PgError (RpcRow × DB) :=
  match user_id with
  | none => Except.ok (⟨false, "Authentication required", 0⟩, db)
  | some uid =>
    match db.findPoll poll_id with
    | none => Except.ok (⟨false, "Poll not found", 0⟩, db)
    | some pl =>
      if securityExpired pl now then
        Except.ok (⟨false, "Poll has expired", 0⟩, db)
      else
        match db.findOptionOfPoll option_id poll_id with
        | none => Except.ok (⟨false, "Invalid option for this poll", 0⟩, db)
        | some opt =>
          if db.hasVote uid poll_id then
            Except.ok (⟨false, "User has already voted on this poll", opt.votes⟩, db)
          else if !(db.users.contains uid) then
            Except.error ⟨"23503", "insert or update on table votes violates foreign key constraint votes_user_id_fkey"⟩
          else
            Except.ok (⟨true, "Vote recorded successfully",
              (((commitVote db uid poll_id option_id).findOption option_id).map PollOption.votes).getD 0⟩,
              commitVote db uid poll_id option_id)

/-! ## Error classifier (src/app/actions/poll-errors.ts) -/

/-- A thrown value as dispatched by `handleError` (poll-errors.ts lines
162–177): an object carrying `code` and `message` fields (PostgREST error
shape), a plain `Error` instance without a `code` property, or any other
thrown value. -/
inductive ThrownError
  | pgShaped (code : String) (message : String)
  | errorInstance (message : String)
  | otherValue (text : String)
  deriving Repr, DecidableEq

/-- The `ApiResponse` shape returned by the server-action error helpers:
`{ success, error? }`. -/
structure ApiResponse where
  success : Bool
  error : Option String
  deriving Repr, DecidableEq

/-- `DATABASE_ERROR_MAP` (poll-errors.ts lines 62–87), `userMessage` column. -/
def DATABASE_ERROR_MAP_userMessage (code : String) : Option String :=
  if code == "PGRST116" then some "The requested item was not found"
  else if code == "23505" then some "This item already exists"
  else if code == "23503" then some "Related item not found"
  else if code == "23502" then some "Required field is missing"
  else none

/-- `DATABASE_ERROR_MAP` (poll-errors.ts lines 62–87), `code` column. -/
def DATABASE_ERROR_MAP_code (code : String) : Option String :=
  if code == "PGRST116" then some "NOT_FOUND"
  else if code == "23505" then some "DUPLICATE_KEY"
  else if code == "23503" then some "FOREIGN_KEY_VIOLATION"
  else if code == "23502" then some "NOT_NULL_VIOLATION"
  else none

/-- The fields of `ErrorInfo` that determine the caller-visible response. -/
structure ErrorInfo where
  code : String
  message : String
  userMessage : String
  deriving Repr, DecidableEq

/-- `mapDatabaseError` (poll-errors.ts lines 94–106): looks the code up in
`DATABASE_ERROR_MAP`, keeps the raw message in `message`, and falls back to
the generic `'A database error occurred'` user message. -/
def mapDatabaseError (e : PgError) : ErrorInfo :=
  { code := (DATABASE_ERROR_MAP_code e.code).getD "DATABASE_ERROR",
    message := e.message,
    userMessage := (DATABASE_ERROR_MAP_userMessage e.code).getD "A database error occurred" }

/-- `mapGenericError` (poll-errors.ts lines 114–152) restricted to the
inputs reachable from `handleError`: a value with both `code` and `message`
fields is routed to `mapDatabaseError` first, so the branches below are the
plain-`Error` branch (`userMessage := error.message`) and the unknown-value
branch (`userMessage := 'An unexpected error occurred'`). -/
def mapGenericError (e : ThrownError) : ErrorInfo :=
  match e with
  | .pgShaped code message => mapDatabaseError ⟨code, message⟩
  | .errorInstance message =>
    { code := "GENERAL_ERROR", message := message, userMessage := message }
  | .otherValue text =>
    { code := "UNKNOWN_ERROR", message := text, userMessage := "An unexpected error occurred" }

/-- `handleError` (poll-errors.ts lines 162–201).  The `customMessage` and
context only feed the log line; the caller-visible response is
`{ success: false, error: errorInfo.userMessage || errorInfo.message }`. -/
def handleError (e : ThrownError) (customMessage : String) : ApiResponse :=
  let info : ErrorInfo :=
    match e with
    | .pgShaped code message => mapDatabaseError ⟨code, message⟩
    | e' => mapGenericError e'
  { success := false,
    error := some (if info.userMessage == "" then info.message else info.userMessage) }

/-! ## TypeScript callers of the `increment_vote` RPC -/

/-- The result object of `recordVoteAtomically`:
`{ success, error?, newVoteCount? }`. -/
structure RecordVoteResult where
  success : Bool
  error : Option String
  newVoteCount : Option Int
  deriving Repr, DecidableEq

/-- `recordVoteAtomically` (src/lib/voteHandler.ts lines 152–186) with the
database running the `supabase_schema.sql` version of `increment_vote`.
On an RPC error whose message contains `'already voted'` it returns the
duplicate-vote result; any other RPC error is re-thrown (`Except.error`).
On RPC success it ignores the RPC result and issues a separate, later
query for the option's count (`optionData?.votes || 0`); `other` is the
interference committed between the RPC and that read. -/
def recordVoteAtomically_schemaRpc (db : DB) (other : DB → DB)
    (pollId optionId userId : String) : Except PgError (RecordVoteResult × DB) :=
  match increment_vote_schema db optionId pollId userId with
  | Except.error e =>
    if strIncludes e.message "already voted" then
      Except.ok (⟨false, some "You have already voted on this poll", none⟩, db)
    else
      Except.error e
  | Except.ok db1 =>
    let db2 := other db1
    let cnt : Int := ((db2.findOption optionId).map PollOption.votes).getD 0
    Except.ok (⟨true, none, some cnt⟩, db2)

/-- `recordVoteAtomically` (src/lib/voteHandler.ts lines 152–186) with the
database running the `scripts/setup_security.sql` version of
`increment_vote`.  The TypeScript destructures `{ data, error }` and
inspects only `error`; the returned row (`data`) — including its
`success = false` business failures — is never looked at. -/
def recordVoteAtomically_securityRpc (db : DB) (now : Nat) (other : DB → DB)
    (pollId optionId userId : String) : Except PgError (RecordVoteResult × DB) :=
  match increment_vote_security db now optionId pollId (some userId) with
  | Except.error e =>
    if strIncludes e.message "already voted" then
      Except.ok (⟨false, some "You have already voted on this poll", none⟩, db)
    else
      Except.error e
  | Except.ok (_row, db1) =>
    let db2 := other db1
    let cnt : Int := ((db2.findOption optionId).map PollOption.votes).getD 0
    Except.ok (⟨true, none, some cnt⟩, db2)

/-- `votePollOperation` (server action, src/unnamed/part_016 lines 195–229)
with the database running the `supabase_schema.sql` version of
`increment_vote`.  It validates only the shape of the two ids
(`validatePollId` / `validateOptionId`: non-empty, non-blank), resolves the
authenticated user (`getCurrentUser` throws `'Authentication required'`
when there is none, which the outer catch maps through `handleError`), and
then invokes the RPC directly — with no poll, option, expiry or duplicate
pre-check.  On success it returns `createSuccessResponse()`. -/
def votePollOperation_schemaRpc (db : DB) (authUser : Option String)
    (pollId optionId : String) : ApiResponse × DB :=
  if pollId == "" then (⟨false, some "Poll ID is required"⟩, db)
  else if isBlank pollId then (⟨false, some "Poll ID cannot be empty"⟩, db)
  else if optionId == "" then (⟨false, some "Option ID is required"⟩, db)
  else if isBlank optionId then (⟨false, some "Option ID cannot be empty"⟩, db)
  else
    match authUser with
    | none => (handleError (.errorInstance "Authentication required") "Failed to submit vote", db)
    | some uid =>
      match increment_vote_schema db optionId pollId uid with
      | Except.error e =>
        if strIncludes e.message "already voted" then
          (⟨false, some "You have already voted on this poll"⟩, db)
        else
          (handleError (.pgShaped e.code e.message) "Failed to submit vote", db)
      | Except.ok db1 => (⟨true, none⟩, db1)

/-- The route handler's expiry test (route.ts line 56):
`poll.expires_at && new Date(poll.expires_at) < new Date()` — strictly
before `now`. -/
def routeExpired (pl : Poll) (now : Nat) : Bool :=
  match pl.expiresAt with
  | none => false
  | some t => decide (t < now)

/-- `handleVote`'s expiry test (voteHandler.ts line 131):
`expiresAt && expiresAt <= now`. -/
def handlerExpired (pl : Poll) (now : Nat) : Bool :=
  match pl.expiresAt with
  | none => false
  | some t => decide (t ≤ now)

/-- The JSON response of `POST /api/votes/record`: HTTP status, the `error`
field of failure bodies, and the `data.userId` / `data.newVoteCount` fields
of the 201 success body. -/
structure HttpResponse where
  status : Nat
  error : Option String
  userId : Option String
  newVoteCount : Option Int
  deriving Repr, DecidableEq

/-- `POST` (src/app/api/votes/record/route.ts) with the database running the
`supabase_schema.sql` version of `increment_vote`.  Field check, then user
resolution (`let currentUserId = userId; if (!currentUserId) { auth }` — a
supplied non-empty `userId` skips the auth lookup entirely), then the
sequential pre-checks: poll exists (404), poll not expired
(`expires_at < now`, 410), option belongs to poll (400), no existing vote
(409); then the RPC, then a separate read of the option's count
(`updatedOption?.votes || null` — a zero count is falsy in JavaScript and
becomes `null`).  `POST_votes_record_afterAuth` is the pipeline from the
poll check onward, i.e. the handler body once `currentUserId` is fixed. -/
def POST_votes_record_afterAuth (db : DB) (now : Nat) (other : DB → DB)
    (pollId optionId currentUserId : String) : HttpResponse × DB :=
  match db.findPoll pollId with
  | none => (⟨404, some "Poll not found", none, none⟩, db)
  | some poll =>
    if routeExpired poll now then (⟨410, some "Poll has expired", none, none⟩, db)
    else
      match db.findOptionOfPoll optionId pollId with
      | none => (⟨400, some "Invalid option for this poll", none, none⟩, db)
      | some _ =>
        if db.hasVote currentUserId pollId then
          (⟨409, some "You have already voted on this poll", none, none⟩, db)
        else
          match increment_vote_schema db optionId pollId currentUserId with
          | Except.error e =>
            if strIncludes e.message "already voted" then
              (⟨409, some "You have already voted on this poll", none, none⟩, db)
            else
              (⟨500, some "Internal server error", none, none⟩, db)
          | Except.ok db1 =>
            (⟨201, none, some currentUserId,
              match (other db1).findOption optionId with
              | none => none
              | some o => if o.votes == 0 then none else some o.votes⟩,
              other db1)

/-- The user-resolution prefix of the same handler (route.ts lines 26–39):
`let currentUserId = userId; if (!currentUserId) { ...auth... }`. -/
def POST_votes_record (db : DB) (now : Nat) (other : DB → DB)
    (pollId optionId : String) (bodyUserId : Option String)
    (authUser : Option String) : HttpResponse × DB :=
  if pollId == "" || optionId == "" then
    (⟨400, some "Poll ID and Option ID are required", none, none⟩, db)
  else
    match bodyUserId with
    | some s =>
      if s == "" then
        match authUser with
        | none => (⟨401, some "Authentication required", none, none⟩, db)
        | some a => POST_votes_record_afterAuth db now other pollId optionId a
      else POST_votes_record_afterAuth db now other pollId optionId s
    | none =>
      match authUser with
      | none => (⟨401, some "Authentication required", none, none⟩, db)
      | some a => POST_votes_record_afterAuth db now other pollId optionId a

/-- The success payload of `handleVote` (src/lib/voteHandler.ts lines 18–23). -/
structure VoteData where
  pollId : String
  optionId : String
  userId : String
  newVoteCount : Int
  deriving Repr, DecidableEq

/-- `ApiResponse<VoteData>` as produced by `handleVote`. -/
structure VoteApiResponse where
  success : Bool
  error : Option String
  data : Option VoteData
  deriving Repr, DecidableEq

/-- `handleVote` (src/lib/voteHandler.ts lines 46–84) with the database
running the `supabase_schema.sql` version of `increment_vote`.  Steps:
blank-id check; `const user = userId || getAuthenticatedUserId()` (a
supplied non-empty `userId` skips the auth lookup); `validatePollAndOption`
— a single joined query (`polls` with `poll_options!inner`, filtered on
both ids) whose empty result yields PGRST116 → `'Poll or option not
found'`, so poll existence and option ownership are decided together and
before the expiry check (`expiresAt <= now`); then
`recordVoteAtomically`. -/
def handleVote_schemaRpc (db : DB) (now : Nat) (other : DB → DB)
    (pollId optionId : String) (bodyUserId : Option String)
    (authUser : Option String) : VoteApiResponse × DB :=
  if isBlank pollId || isBlank optionId then
    (⟨false, some "Poll ID and Option ID are required", none⟩, db)
  else
    let user? : Option String :=
      match bodyUserId with
      | some s => if s == "" then authUser else some s
      | none => authUser
    match user? with
    | none => (⟨false, some "Authentication required", none⟩, db)
    | some user =>
      let joined : Option Poll :=
        match db.findPoll pollId, db.findOptionOfPoll optionId pollId with
        | some pl, some _ => some pl
        | _, _ => none
      match joined with
      | none => (⟨false, some "Poll or option not found", none⟩, db)
      | some pl =>
        if handlerExpired pl now then (⟨false, some "Poll has expired", none⟩, db)
        else
          match recordVoteAtomically_schemaRpc db other pollId optionId user with
          | Except.error e =>
            ((fun r => (⟨false, r.error, none⟩ : VoteApiResponse))
              (handleError (.pgShaped e.code e.message) "Failed to process vote"), db)
          | Except.ok (res, db2) =>
            if res.success then
              -- `newVoteCount: voteResult.newVoteCount!` — always set on success
              (⟨true, none, some ⟨pollId, optionId, user, res.newVoteCount.getD 0⟩⟩, db2)
            else
              (⟨false, res.error, none⟩, db2)

/-! ## Vote sequences and the tally invariant -/

/-- One vote attempt, tagged with the deployed `increment_vote` version it
runs against. -/
inductive VoteReq
  | schemaReq (option_id poll_id user_id : String)
  | securityReq (now : Nat) (option_id poll_id : String) (user_id : Option String)
  deriving Repr, DecidableEq

/-- Apply one vote attempt to the storage state: an aborted transaction
leaves the state unchanged. -/
def applyVote (db : DB) (r : VoteReq) : DB :=
  match r with
  | .schemaReq o p u =>
    match increment_vote_schema db o p u with
    | Except.ok db' => db'
    | Except.error _ => db
  | .securityReq now o p u =>
    match increment_vote_security db now o p u with
    | Except.ok (_, db') => db'
    | Except.error _ => db

/-- The state after a whole sequence of vote attempts. -/
def castSequence (db : DB) (rs : List VoteReq) : DB :=
  rs.foldl applyVote db

/-- Spec Invariant I3 (tally consistency): every option's `voteCount`
equals the number of committed `VoteRecord`s referencing it. -/
def tallyInvariant (db : DB) : Prop :=
  ∀ opt ∈ db.options,
    opt.votes = ((db.votes.filter (fun v => v.optionId == opt.id)).length : Int)

instance (db : DB) : Decidable (tallyInvariant db) :=
  inferInstanceAs (Decidable (∀ opt ∈ db.options,
    opt.votes = ((db.votes.filter (fun v => v.optionId == opt.id)).length : Int)))

/-! ## Concrete states used by the evaluations below -/

/-- One user, two polls; the only option `o2` belongs to `p2`.  Nothing
has been voted yet. -/
def dbCross : DB :=
  ⟨["u1"], [⟨"p1", none⟩, ⟨"p2", none⟩], [⟨"o2", "p2", 0⟩], []⟩

/-- A poll whose option `o1` already carries `u1`'s committed vote. -/
def dbDup : DB :=
  ⟨["u1"], [⟨"p1", none⟩], [⟨"o1", "p1", 1⟩], [⟨"u1", "p1", "o1"⟩]⟩

/-- A poll that expired at time 100, with one untouched option. -/
def dbExpiredPoll : DB :=
  ⟨["u1"], [⟨"p1", some 100⟩], [⟨"o1", "p1", 0⟩], []⟩

/-- A fresh poll with one untouched option. -/
def dbFresh : DB :=
  ⟨["u1"], [⟨"p1", none⟩], [⟨"o1", "p1", 0⟩], []⟩

/-! ## Helper lemmas about the two RPC versions -/

/-- A successful `supabase_schema.sql` `increment_vote` commits exactly the
vote-record insert and the one-option increment, and touches nothing else. -/
theorem increment_vote_schema_ok (db : DB) (o p u : String) (db1 : DB)
    (h : increment_vote_schema db o p u = Except.ok db1) :
    db1 = commitVote db u p o := by
  unfold increment_vote_schema at h
  split at h
  · exact absurd h (by simp)
  · split at h
    · exact absurd h (by simp)
    · split at h
      · exact absurd h (by simp)
      · split at h
        · exact absurd h (by simp)
        · exact (Except.ok.injEq _ _ ▸ h).symm


/-- A successful-row `setup_security.sql` `increment_vote` call commits
exactly the insert/increment pair; a failure row leaves the state
untouched. -/
theorem increment_vote_security_ok (db : DB) (now : Nat) (o p uid : String)
    (row : RpcRow) (db1 : DB)
    (h : increment_vote_security db now o p (some uid) = Except.ok (row, db1)) :
    (row.success = true → db1 = commitVote db uid p o)
    ∧ (row.success = false → db1 = db) := by
  simp only [increment_vote_security] at h
  split at h
  · simp only [Except.ok.injEq, Prod.mk.injEq] at h
    obtain ⟨hrow, hdb⟩ := h
    subst hrow; subst hdb
    exact ⟨fun hc => by simp at hc, fun _ => rfl⟩
  · split at h
    · simp only [Except.ok.injEq, Prod.mk.injEq] at h
      obtain ⟨hrow, hdb⟩ := h
      subst hrow; subst hdb
      exact ⟨fun hc => by simp at hc, fun _ => rfl⟩
    · split at h
      · simp only [Except.ok.injEq, Prod.mk.injEq] at h
        obtain ⟨hrow, hdb⟩ := h
        subst hrow; subst hdb
        exact ⟨fun hc => by simp at hc, fun _ => rfl⟩
      · split at h
        · simp only [Except.ok.injEq, Prod.mk.injEq] at h
          obtain ⟨hrow, hdb⟩ := h
          subst hrow; subst hdb
          exact ⟨fun hc => by simp at hc, fun _ => rfl⟩
        · split at h
          · exact absurd h (by simp)
          · simp only [Except.ok.injEq, Prod.mk.injEq] at h
            obtain ⟨hrow, hdb⟩ := h
            subst hrow; subst hdb
            exact ⟨fun _ => rfl, fun hc => by simp at hc⟩

/-- When a committed vote for `(u, p)` already exists, the
`setup_security.sql` `increment_vote` reports the failure — whichever of
its five checks fires first — as a returned row with `success = FALSE`,
leaving the state unchanged, and never as a raised error. -/
theorem increment_vote_security_dup_row (db : DB) (now : Nat) (o p u : String)
    (h : db.hasVote u p = true) :
    ∃ row : RpcRow,
      increment_vote_security db now o p (some u) = Except.ok (row, db)
        ∧ row.success = false := by
  simp only [increment_vote_security]
  cases hfp : db.findPoll p with
  | none => exact ⟨_, rfl, rfl⟩
  | some pl =>
    dsimp only
    by_cases hexp : securityExpired pl now
    · rw [if_pos hexp]
      exact ⟨_, rfl, rfl⟩
    · rw [if_neg hexp]
      cases hfo : db.findOptionOfPoll o p with
      | none => exact ⟨_, rfl, rfl⟩
      | some opt =>
        rw [h]
        exact ⟨_, rfl, rfl⟩

/-- Committing the insert/increment pair preserves Invariant I3: the voted
option's counter and its record count both grow by one, every other
option's counter and record count are unchanged. -/
theorem tallyInvariant_commitVote (db : DB) (u p o : String)
    (h : tallyInvariant db) : tallyInvariant (commitVote db u p o) := by
  intro opt' hmem
  simp only [commitVote, bumpVotes, List.mem_map] at hmem
  obtain ⟨opt, hopt, heq⟩ := hmem
  have hcount := h opt hopt
  simp only [commitVote]
  by_cases hid : (opt.id == o) = true
  · rw [if_pos hid] at heq
    subst heq
    have ho : opt.id = o := by simpa using hid
    simp only [List.filter_append, List.length_append, List.filter_cons,
      List.filter_nil]
    simp only [ho]
    simp [hcount, ho]
  · rw [if_neg hid] at heq
    subst heq
    have ho : ¬ opt.id = o := by simpa using hid
    simp only [List.filter_append, List.length_append, List.filter_cons,
      List.filter_nil]
    have : ((⟨u, p, o⟩ : VoteRecord).optionId == opt.id) = false := by
      simp only [VoteRecord.optionId]
      exact beq_eq_false_iff_ne.mpr (fun hx => ho hx.symm)
    simp [this, hcount]

/-- One vote attempt — against either `increment_vote` version — preserves
Invariant I3: an aborted transaction changes nothing, a committed one
commits the exact insert/increment pair. -/
theorem tallyInvariant_applyVote (db : DB) (r : VoteReq) (h : tallyInvariant db) :
    tallyInvariant (applyVote db r) := by
  cases r with
  | schemaReq o p u =>
    dsimp only [applyVote]
    cases hiv : increment_vote_schema db o p u with
    | error e => exact h
    | ok db1 =>
      rw [increment_vote_schema_ok db o p u db1 hiv]
      exact tallyInvariant_commitVote db u p o h
  | securityReq now o p u? =>
    cases u? with
    | none => exact h
    | some uid =>
      dsimp only [applyVote]
      cases hiv : increment_vote_security db now o p (some uid) with
      | error e => exact h
      | ok rd =>
        obtain ⟨row, db1⟩ := rd
        rcases Bool.eq_false_or_eq_true row.success with hs | hs
        · rw [(increment_vote_security_ok db now o p uid row db1 hiv).1 hs]
          exact tallyInvariant_commitVote db uid p o h
        · rw [(increment_vote_security_ok db now o p uid row db1 hiv).2 hs]
          exact h

deriving instance DecidableEq for Except

/-! ## Claim theorems -/

/-- C1: with the `supabase_schema.sql` `increment_vote` deployed, the
`votePollOperation` path performs no poll/option validation, so a vote
naming poll `p1` and option `o2` of a *different* poll `p2` does not fail
with InvalidOption: it reports success, inserts the cross-poll
`VoteRecord`, and increments `o2`'s tally.  The enhanced
`setup_security.sql` version of the function rejects the same input with
`'Invalid option for this poll'`, marking the schema version as the slip. -/
theorem votePollOperation_cross_poll_vote_commits :
    votePollOperation_schemaRpc dbCross (some "u1") "p1" "o2"
      = (⟨true, none⟩,
         ⟨["u1"], [⟨"p1", none⟩, ⟨"p2", none⟩], [⟨"o2", "p2", 1⟩],
          [⟨"u1", "p1", "o2"⟩]⟩)
    ∧ increment_vote_security dbCross 0 "o2" "p1" (some "u1")
      = Except.ok (⟨false, "Invalid option for this poll", 0⟩, dbCross) := by
  exact ⟨by decide, by decide⟩

/-- C2: on a state where `u1` already holds a committed vote for `p1`, the
`supabase_schema.sql` path aborts and surfaces the AlreadyVoted result —
but against the `scripts/setup_security.sql` version of `increment_vote`
the very same duplicate call makes `recordVoteAtomically` report the vote
as accepted (with the stale count), because the failure row's `error`
field is null. -/
theorem duplicate_vote_caller_visible_result :
    recordVoteAtomically_schemaRpc dbDup id "p1" "o1" "u1"
      = Except.ok (⟨false, some "You have already voted on this poll", none⟩, dbDup)
    ∧ recordVoteAtomically_securityRpc dbDup 50 id "p1" "o1" "u1"
      = Except.ok (⟨true, none, some 1⟩, dbDup) := by
  exact ⟨by decide, by decide⟩

/-- C3: `dbExpiredPoll`'s poll expired at time 100; at time 200 the
`votePollOperation` path backed by the `supabase_schema.sql`
`increment_vote` — which contains no expiry check at all — commits the
vote and reports success instead of failing with PollExpired, while the
enhanced `setup_security.sql` version rejects the same attempt inside the
transaction with `'Poll has expired'`. -/
theorem votePollOperation_commits_on_expired_poll :
    (dbExpiredPoll.findPoll "p1").map Poll.expiresAt = some (some 100)
    ∧ (100 : Nat) < 200
    ∧ votePollOperation_schemaRpc dbExpiredPoll (some "u1") "p1" "o1"
      = (⟨true, none⟩,
         ⟨["u1"], [⟨"p1", some 100⟩], [⟨"o1", "p1", 1⟩], [⟨"u1", "p1", "o1"⟩]⟩)
    ∧ increment_vote_security dbExpiredPoll 200 "o1" "p1" (some "u1")
      = Except.ok (⟨false, "Poll has expired", 0⟩, dbExpiredPoll) := by
  exact ⟨by decide, by decide, by decide, by decide⟩

/-- C8 (counterexample): a storage-level failure that surfaces as a plain
`Error` value — outside the known `DATABASE_ERROR_MAP` taxonomy — is not
mapped to a generic InternalError shape: `handleError` copies the raw
error message verbatim into the caller-visible `error` field. -/
theorem handleError_exposes_raw_error_text :
    handleError (.errorInstance "ECONNRESET raw storage failure while writing votes")
        "Failed to process vote"
      = ⟨false, some "ECONNRESET raw storage failure while writing votes"⟩ := by
  decide

/-- C4: the `setup_security.sql` `increment_vote` reports each of its five
business failures — null user, poll not found, poll expired, option not in
the poll, already voted — as a returned `success = FALSE` row, never as a
raised error; and because `recordVoteAtomically` inspects only the RPC
result's `error` field before reporting success, the caller reports every
duplicate vote executed against this version as accepted. -/
theorem security_rpc_duplicate_reported_as_accepted
    (db : DB) (now : Nat) (other : DB → DB) (p o u : String) :
    increment_vote_security db now o p none
      = Except.ok (⟨false, "Authentication required", 0⟩, db)
    ∧ (db.findPoll p = none →
        increment_vote_security db now o p (some u)
          = Except.ok (⟨false, "Poll not found", 0⟩, db))
    ∧ (∀ pl, db.findPoll p = some pl → securityExpired pl now = true →
        increment_vote_security db now o p (some u)
          = Except.ok (⟨false, "Poll has expired", 0⟩, db))
    ∧ (∀ pl, db.findPoll p = some pl → securityExpired pl now = false →
        db.findOptionOfPoll o p = none →
        increment_vote_security db now o p (some u)
          = Except.ok (⟨false, "Invalid option for this poll", 0⟩, db))
    ∧ (db.hasVote u p = true →
        (∃ row : RpcRow,
          increment_vote_security db now o p (some u) = Except.ok (row, db)
            ∧ row.success = false)
        ∧ (∃ r : RecordVoteResult, ∃ db2 : DB,
          recordVoteAtomically_securityRpc db now other p o u
            = Except.ok (r, db2) ∧ r.success = true)) := by
  refine ⟨rfl, ?_, ?_, ?_, ?_⟩
  · intro hfp
    simp only [increment_vote_security]
    rw [hfp]
  · intro pl hfp hexp
    simp only [increment_vote_security]
    rw [hfp]
    dsimp only
    rw [hexp]
    rfl
  · intro pl hfp hexp hfo
    simp only [increment_vote_security]
    rw [hfp]
    dsimp only
    rw [hexp, hfo]
    rfl
  · intro hdup
    obtain ⟨row, hrow, hsucc⟩ := increment_vote_security_dup_row db now o p u hdup
    refine ⟨⟨row, hrow, hsucc⟩, ?_⟩
    unfold recordVoteAtomically_securityRpc
    rw [hrow]
    exact ⟨_, _, rfl, rfl⟩

/-- Witness for `security_rpc_duplicate_reported_as_accepted` at the
concrete duplicate-vote state `dbDup`. -/
theorem security_rpc_duplicate_reported_as_accepted_witness :
    (∃ row : RpcRow,
      increment_vote_security dbDup 50 "o1" "p1" (some "u1")
        = Except.ok (row, dbDup) ∧ row.success = false)
    ∧ (∃ r : RecordVoteResult, ∃ db2 : DB,
      recordVoteAtomically_securityRpc dbDup 50 id "p1" "o1" "u1"
        = Except.ok (r, db2) ∧ r.success = true) :=
  (security_rpc_duplicate_reported_as_accepted dbDup 50 id "p1" "o1" "u1").2.2.2.2
    (by decide)

/-- C9: in both `increment_vote` versions the vote-record insert and the
tally increment happen as one pair or not at all.  A raised error
(`Except.error`) aborts the transaction with no state; a successful schema
call, and a `success = TRUE` row of the enhanced call, commit exactly
`commitVote` (the insert plus the increment of the same option); a
`success = FALSE` row leaves the state exactly unchanged. -/
theorem increment_vote_pair_atomic
    (db : DB) (now : Nat) (o p u uid : String) :
    (∀ db1, increment_vote_schema db o p u = Except.ok db1 →
      db1 = commitVote db u p o)
    ∧ (∀ (row : RpcRow) (db1 : DB),
        increment_vote_security db now o p (some uid) = Except.ok (row, db1) →
        (row.success = true → db1 = commitVote db uid p o)
        ∧ (row.success = false → db1 = db)) :=
  ⟨fun db1 h => increment_vote_schema_ok db o p u db1 h,
   fun row db1 h => increment_vote_security_ok db now o p uid row db1 h⟩

/-- Witness for `increment_vote_pair_atomic`: the schema RPC on the fresh
state commits exactly the pair. -/
theorem increment_vote_pair_atomic_witness :
    (⟨["u1"], [⟨"p1", none⟩], [⟨"o1", "p1", 1⟩], [⟨"u1", "p1", "o1"⟩]⟩ : DB)
      = commitVote dbFresh "u1" "p1" "o1" :=
  (increment_vote_pair_atomic dbFresh 50 "o1" "p1" "u1" "u1").1
    ⟨["u1"], [⟨"p1", none⟩], [⟨"o1", "p1", 1⟩], [⟨"u1", "p1", "o1"⟩]⟩ (by decide)

/-- C10: Invariant I3 (every option's `voteCount` equals the number of
committed `VoteRecord`s referencing it) holds after any sequence of vote
attempts against either `increment_vote` version, provided it held
initially: each committed vote adds exactly one record and one increment
of the same option, and each rejected vote changes nothing. -/
theorem tallyInvariant_castSequence (rs : List VoteReq) (db : DB)
    (h : tallyInvariant db) : tallyInvariant (castSequence db rs) := by
  induction rs generalizing db with
  | nil => exact h
  | cons r rs ih => exact ih (applyVote db r) (tallyInvariant_applyVote db r h)

/-- Witness for `tallyInvariant_castSequence` on a concrete three-request
run (one committed vote, one duplicate rejection, one enhanced-RPC
duplicate row). -/
theorem tallyInvariant_castSequence_witness :
    tallyInvariant dbFresh
    ∧ tallyInvariant (castSequence dbFresh
        [.schemaReq "o1" "p1" "u1", .schemaReq "o1" "p1" "u1",
         .securityReq 50 "o1" "p1" (some "u1")]) :=
  ⟨by decide,
   tallyInvariant_castSequence
     [.schemaReq "o1" "p1" "u1", .schemaReq "o1" "p1" "u1",
      .securityReq 50 "o1" "p1" (some "u1")] dbFresh (by decide)⟩

/-- Two users, one poll, one option already carrying 5 votes. -/
def dbTwoUsers : DB :=
  ⟨["u4", "u5"], [⟨"p1", none⟩], [⟨"o1", "p1", 5⟩], []⟩

/-- C5 (counterexample): `u4`'s vote commits with an in-transaction
post-increment count of 6, but `u5`'s vote commits between `u4`'s RPC and
`recordVoteAtomically`'s separate count query, so the result handed back
for `u4`'s vote is `newCount = 7` — not the post-increment count read back
in the same transaction, which the claim requires. -/
theorem newCount_from_separate_read_differs :
    increment_vote_schema dbTwoUsers "o1" "p1" "u4"
      = Except.ok (⟨["u4", "u5"], [⟨"p1", none⟩], [⟨"o1", "p1", 6⟩],
          [⟨"u4", "p1", "o1"⟩]⟩ : DB)
    ∧ (((⟨["u4", "u5"], [⟨"p1", none⟩], [⟨"o1", "p1", 6⟩],
          [⟨"u4", "p1", "o1"⟩]⟩ : DB).findOption "o1").map PollOption.votes)
      = some 6
    ∧ recordVoteAtomically_schemaRpc dbTwoUsers
        (fun d => applyVote d (.schemaReq "o1" "p1" "u5")) "p1" "o1" "u4"
      = Except.ok (⟨true, none, some 7⟩,
          (⟨["u4", "u5"], [⟨"p1", none⟩], [⟨"o1", "p1", 7⟩],
            [⟨"u4", "p1", "o1"⟩, ⟨"u5", "p1", "o1"⟩]⟩ : DB)) := by
  exact ⟨by decide, by decide, by decide⟩

/-- C5 (amended): on a successful RPC, `recordVoteAtomically`'s `newCount`
is whatever the option's counter holds at the time of its separate,
later query — the post-RPC state plus any interference `other` —
defaulting to 0 when the row is gone, rather than the count read back
inside the voting transaction. -/
theorem recordVote_newCount_is_separate_read
    (db : DB) (other : DB → DB) (p o u : String) (db1 : DB)
    (h : increment_vote_schema db o p u = Except.ok db1) :
    recordVoteAtomically_schemaRpc db other p o u
      = Except.ok (⟨true, none,
          some ((((other db1).findOption o).map PollOption.votes).getD 0)⟩,
          other db1) := by
  unfold recordVoteAtomically_schemaRpc
  rw [h]

/-- Witness for `recordVote_newCount_is_separate_read` at the concrete
interleaved run of `newCount_from_separate_read_differs`. -/
theorem recordVote_newCount_is_separate_read_witness :
    recordVoteAtomically_schemaRpc dbTwoUsers
        (fun d => applyVote d (.schemaReq "o1" "p1" "u5")) "p1" "o1" "u4"
      = Except.ok (⟨true, none,
          some (((((fun d => applyVote d (.schemaReq "o1" "p1" "u5"))
              (⟨["u4", "u5"], [⟨"p1", none⟩], [⟨"o1", "p1", 6⟩],
                [⟨"u4", "p1", "o1"⟩]⟩ : DB)).findOption "o1").map
              PollOption.votes).getD 0)⟩,
          (fun d => applyVote d (.schemaReq "o1" "p1" "u5"))
            (⟨["u4", "u5"], [⟨"p1", none⟩], [⟨"o1", "p1", 6⟩],
              [⟨"u4", "p1", "o1"⟩]⟩ : DB)) :=
  recordVote_newCount_is_separate_read dbTwoUsers
    (fun d => applyVote d (.schemaReq "o1" "p1" "u5")) "p1" "o1" "u4"
    (⟨["u4", "u5"], [⟨"p1", none⟩], [⟨"o1", "p1", 6⟩], [⟨"u4", "p1", "o1"⟩]⟩ : DB)
    (by decide)

/-- In the route handler's post-auth pipeline, the only 201 response is the
success payload, and it attributes the vote to the resolved user id. -/
theorem POST_afterAuth_201_userId (db : DB) (now : Nat) (other : DB → DB)
    (p o u : String) :
    (POST_votes_record_afterAuth db now other p o u).1.status = 201 →
    (POST_votes_record_afterAuth db now other p o u).1.userId = some u := by
  unfold POST_votes_record_afterAuth
  split
  · intro h; simp at h
  · split
    · intro h; simp at h
    · split
      · intro h; simp at h
      · split
        · intro h; simp at h
        · split
          · split
            · intro h; simp at h
            · intro h; simp at h
          · intro h; rfl

/-- C6: when the request body supplies a non-empty `userId`, both the
`POST /api/votes/record` handler and `handleVote` never consult the
authentication state — the result is identical for an unauthenticated
caller and for any authenticated one — and any 201 success attributes the
vote to the supplied id. -/
theorem supplied_userId_bypasses_auth
    (db : DB) (now : Nat) (other : DB → DB) (p o u : String)
    (a1 a2 : Option String) (hu : u ≠ "") :
    POST_votes_record db now other p o (some u) a1
      = POST_votes_record db now other p o (some u) a2
    ∧ handleVote_schemaRpc db now other p o (some u) a1
      = handleVote_schemaRpc db now other p o (some u) a2
    ∧ ((POST_votes_record db now other p o (some u) a1).1.status = 201 →
        (POST_votes_record db now other p o (some u) a1).1.userId = some u) := by
  have hbeq : (u == "") = false := beq_eq_false_iff_ne.mpr hu
  refine ⟨?_, ?_, ?_⟩
  · simp only [POST_votes_record, hbeq, Bool.false_eq_true, if_false]
  · simp only [handleVote_schemaRpc, hbeq, Bool.false_eq_true, if_false]
  · simp only [POST_votes_record, hbeq, Bool.false_eq_true, if_false]
    split
    · intro h; simp at h
    · exact POST_afterAuth_201_userId db now other p o u

/-- Witness for `supplied_userId_bypasses_auth` at a concrete request whose
body carries `userId = "u9"`. -/
theorem supplied_userId_bypasses_auth_witness :
    ("u9" : String) ≠ ""
    ∧ (POST_votes_record dbFresh 50 id "p1" "o1" (some "u9") none
        = POST_votes_record dbFresh 50 id "p1" "o1" (some "u9") (some "zz")
      ∧ handleVote_schemaRpc dbFresh 50 id "p1" "o1" (some "u9") none
        = handleVote_schemaRpc dbFresh 50 id "p1" "o1" (some "u9") (some "zz")
      ∧ ((POST_votes_record dbFresh 50 id "p1" "o1" (some "u9") none).1.status = 201 →
          (POST_votes_record dbFresh 50 id "p1" "o1" (some "u9") none).1.userId
            = some "u9")) :=
  ⟨by decide,
   supplied_userId_bypasses_auth dbFresh 50 id "p1" "o1" "u9" none (some "zz")
     (by decide)⟩

/-- An expired poll `p1` and an option `o2` that belongs to the other poll
`p2`. -/
def dbExpiredMismatch : DB :=
  ⟨["u1"], [⟨"p1", some 100⟩, ⟨"p2", none⟩], [⟨"o2", "p2", 0⟩], []⟩

/-- C7 (counterexample): on an existing poll that is expired (expired at
100, requested at 200) together with an option of a different poll,
`handleVote` returns `'Poll or option not found'` — not the PollExpired
error the claim requires — because its `validatePollAndOption` decides
poll existence and option ownership in one joined query *before* the
expiry check. -/
theorem handleVote_expired_mismatch_yields_not_found :
    dbExpiredMismatch.findPoll "p1" = some ⟨"p1", some 100⟩
    ∧ handlerExpired ⟨"p1", some 100⟩ 200 = true
    ∧ (handleVote_schemaRpc dbExpiredMismatch 200 id "p1" "o2" (some "u1") none).1
      = ⟨false, some "Poll or option not found", none⟩ := by
  exact ⟨by decide, by decide, by decide⟩

/-- With non-empty ids and a body-supplied user, the route handler is its
post-auth pipeline. -/
theorem POST_votes_record_resolved (db : DB) (now : Nat) (other : DB → DB)
    (p o u : String) (a : Option String)
    (hp : (p == "") = false) (ho : (o == "") = false)
    (hu : (u == "") = false) :
    POST_votes_record db now other p o (some u) a
      = POST_votes_record_afterAuth db now other p o u := by
  simp [POST_votes_record, hp, ho, hu]

/-- C7 (amended): the `POST /api/votes/record` pipeline does run its five
checks in the spec's order, short-circuiting on the first failure — poll
existence masks everything later, expiry (its `expires_at < now` test)
masks option validity and duplicate detection, option validity masks
duplicate detection.  The `handleVote` pipeline does not: it checks the
joined poll+option lookup before expiry
(`handleVote_expired_mismatch_yields_not_found`). -/
theorem post_route_checks_in_spec_order
    (db : DB) (now : Nat) (other : DB → DB) (p o u : String) (a : Option String)
    (hp : p ≠ "") (ho : o ≠ "") (hu : u ≠ "") :
    (db.findPoll p = none →
      (POST_votes_record db now other p o (some u) a).1
        = ⟨404, some "Poll not found", none, none⟩)
    ∧ (∀ pl, db.findPoll p = some pl → routeExpired pl now = true →
      (POST_votes_record db now other p o (some u) a).1
        = ⟨410, some "Poll has expired", none, none⟩)
    ∧ (∀ pl, db.findPoll p = some pl → routeExpired pl now = false →
        db.findOptionOfPoll o p = none →
      (POST_votes_record db now other p o (some u) a).1
        = ⟨400, some "Invalid option for this poll", none, none⟩)
    ∧ (∀ pl opt, db.findPoll p = some pl → routeExpired pl now = false →
        db.findOptionOfPoll o p = some opt → db.hasVote u p = true →
      (POST_votes_record db now other p o (some u) a).1
        = ⟨409, some "You have already voted on this poll", none, none⟩) := by
  rw [POST_votes_record_resolved db now other p o u a
    (beq_eq_false_iff_ne.mpr hp) (beq_eq_false_iff_ne.mpr ho)
    (beq_eq_false_iff_ne.mpr hu)]
  refine ⟨?_, ?_, ?_, ?_⟩
  · intro hfp
    unfold POST_votes_record_afterAuth
    rw [hfp]
  · intro pl hfp hexp
    unfold POST_votes_record_afterAuth
    rw [hfp]
    dsimp only
    rw [hexp]
    rfl
  · intro pl hfp hexp hfo
    unfold POST_votes_record_afterAuth
    rw [hfp]
    dsimp only
    rw [hexp, hfo]
    rfl
  · intro pl opt hfp hexp hfo hv
    unfold POST_votes_record_afterAuth
    rw [hfp]
    dsimp only
    rw [hexp, hfo]
    dsimp only
    rw [hv]
    rfl

/-- Witness for `post_route_checks_in_spec_order`: the same expired poll /
mismatched option input on which `handleVote` fails the ordering does
yield `'Poll has expired'` through the route handler. -/
theorem post_route_checks_in_spec_order_witness :
    (POST_votes_record dbExpiredMismatch 200 id "p1" "o2" (some "u1") none).1
      = ⟨410, some "Poll has expired", none, none⟩ :=
  (post_route_checks_in_spec_order dbExpiredMismatch 200 id "p1" "o2" "u1" none
      (by decide) (by decide) (by decide)).2.1
    ⟨"p1", some 100⟩ (by decide) (by decide)

/-- C8 (amended): a storage failure that arrives with the PostgREST shape
(`code` and `message` fields) and an unknown code maps to the fixed
generic message `'A database error occurred'`, with no raw text; but a
failure that arrives as a plain `Error` value has its raw message returned
verbatim to the caller. -/
theorem handleError_pg_shape_is_generic
    (code message customMessage : String)
    (h : DATABASE_ERROR_MAP_userMessage code = none) :
    handleError (.pgShaped code message) customMessage
      = ⟨false, some "A database error occurred"⟩
    ∧ handleError (.errorInstance message) customMessage
      = ⟨false, some message⟩ := by
  constructor
  · have hne : (("A database error occurred" : String) == "") = false := by decide
    simp [handleError, mapDatabaseError, h, hne]
  · simp [handleError, mapGenericError, ite_self]

/-- Witness for `handleError_pg_shape_is_generic` at the raise_exception
code `P0001`, which is outside `DATABASE_ERROR_MAP`. -/
theorem handleError_pg_shape_is_generic_witness :
    DATABASE_ERROR_MAP_userMessage "P0001" = none
    ∧ (handleError (.pgShaped "P0001" "User has already voted on this poll")
          "Failed to submit vote"
        = ⟨false, some "A database error occurred"⟩
      ∧ handleError (.errorInstance "User has already voted on this poll")
          "Failed to submit vote"
        = ⟨false, some "User has already voted on this poll"⟩) :=
  ⟨by decide,
   handleError_pg_shape_is_generic "P0001" "User has already voted on this poll"
     "Failed to submit vote" (by decide)⟩
